import Mathlib

/-!
Shallow embedding of the PodCleaner message-driven processing pipeline
(`src/podcleaner/`), together with proofs settling the specification claims
about correlation preservation, idempotent short-circuits, ad-block
coalescing, interval merging, retry behaviour, failure handling, persisted
dedup-state layout, and broker dispatch.

Conventions of the embedding:
* Python `float` times are modelled as `ℚ` (the algorithms only compare,
  subtract and take maxima, all exact operations).
* Python exceptions are modelled with `Except`/`Option`; external effects
  (network, disk, LLM, audio engine) are modelled as oracle parameters plus
  an explicit `Effect` trace collected by each handler.
* `dict`s keyed by strings are modelled as association lists.
* Imperative loops are translated into fuelled structural recursions (the
  fuel is always instantiated so that it never runs out on the loop's actual
  iteration count), keeping every definition kernel-computable.
-/

set_option allowUnsafeReducibility true in
attribute [semireducible] Rat.sub Rat.add Rat.mul Rat.div Rat.inv Rat.neg

namespace Podcleaner

/-! ### Data model (`podcleaner/models.py`) -/

/-- `models.Segment`: one transcript unit.  Python's `end` field is spelled
`stop` because `end` is a Lean keyword. -/
structure Segment where
  id : Int
  text : String
  start : ℚ
  stop : ℚ
  is_ad : Bool
deriving DecidableEq, Repr

/-- `models.TranscriptChunk`. -/
structure TranscriptChunk where
  segments : List Segment
  chunk_id : Nat
deriving DecidableEq, Repr

/-- `models.ProcessingResult`. -/
structure ProcessingResult where
  chunk_id : Nat
  segments : List Segment
  error : Option String
deriving DecidableEq, Repr

/-- `config.LLMConfig` (the fields the embedded algorithms use). -/
structure LLMConfig where
  chunk_size : Nat
  max_attempts : Nat
deriving DecidableEq, Repr

/-- `config.AudioConfig`. -/
structure AudioConfig where
  min_duration : ℚ
  max_gap : ℚ
deriving DecidableEq, Repr

/-! ### String helpers

Python's `phrase in text.lower()` test, on `List Char`; `Char.toLower`
matches Python `str.lower` on the ASCII alphabet used by the phrase sets. -/

/-- `pat` is a prefix of `hay` (character lists). -/
def prefixOfChars : List Char → List Char → Bool
  | [], _ => true
  | _ :: _, [] => false
  | p :: ps, h :: hs => p == h && prefixOfChars ps hs

/-- `pat` occurs as a contiguous substring of `hay` (character lists). -/
def containsChars (pat : List Char) : List Char → Bool
  | [] => pat.isEmpty
  | h :: t => prefixOfChars pat (h :: t) || containsChars pat t

/-- Python's `pat in hay` on strings. -/
def strContainsSub (hay pat : String) : Bool :=
  containsChars pat.data hay.data

/-- Python's `str.lower` (per-character). -/
def lowerStr (s : String) : String :=
  String.mk (s.data.map Char.toLower)

/-! ### AdDetector coalescing (`ad_detector.py`) -/

/-- The hard-coded transition-phrase set of `AdDetector._merge_adjacent_ads`. -/
def transition_phrases : List String :=
  ["nach einer kurzen unterbrechung",
   "bleiben sie dran",
   "wir sind gleich wieder da",
   "gleich geht es weiter"]

/-- The hard-coded promotional-indicator set of
`AdDetector._is_promotional_content`. -/
def promotional_indicators : List String :=
  ["tickets",
   "infos",
   "anmeldung",
   "weitere informationen",
   "sparen sie",
   "rabatt",
   "vorteilscode",
   "jetzt buchen",
   "besuchen sie",
   "mehr erfahren"]

/-- `AdDetector._is_promotional_content`. -/
def is_promotional_content (text : String) : Bool :=
  promotional_indicators.any (fun p => strContainsSub (lowerStr text) p)

/-- The transition-phrase test inside `AdDetector._merge_adjacent_ads`. -/
def matches_transition (text : String) : Bool :=
  transition_phrases.any (fun p => strContainsSub (lowerStr text) p)

/-- In-place `segments[j].is_ad = True` of the Python code. -/
def markAd : List Segment → Nat → List Segment
  | [], _ => []
  | s :: t, 0 => { s with is_ad := true } :: t
  | s :: t, n + 1 => s :: markAd t n

/-- `segments[j].is_ad` (false out of range; the code never reads out of
range because every access is guarded by a length test). -/
def adAt (segs : List Segment) (j : Nat) : Bool :=
  match segs[j]? with
  | some s => s.is_ad
  | none => false

/-- The inner `while j < len(segments)` walk of
`AdDetector._merge_adjacent_ads`, which extends an ad block forward from a
transition-phrase segment.  Throughout the source, the running set
`ad_segments` equals the set of indices whose `is_ad` flag is set (every
mutation updates both), so the embedding keeps only the segment list.
`fuel` bounds the iteration count; the walk advances `j` by one per step, so
any `fuel ≥ segs.length - j` is enough. -/
def merge_walk : Nat → List Segment → Nat → List Segment
  | 0, segs, _ => segs
  | fuel + 1, segs, j =>
    if h : j < segs.length then
      if (segs.get ⟨j, h⟩).is_ad || is_promotional_content (segs.get ⟨j, h⟩).text then
        merge_walk fuel (markAd segs j) (j + 1)
      else if hj : j + 1 < segs.length then
        if (segs.get ⟨j + 1, hj⟩).is_ad
            && decide ((segs.get ⟨j + 1, hj⟩).start - (segs.get ⟨j, h⟩).stop ≤ 5) then
          merge_walk fuel (markAd segs j) (j + 1)
        else segs
      else segs
    else segs

/-- The outer `for i, segment in enumerate(segments)` loop of
`AdDetector._merge_adjacent_ads`. -/
def merge_outer : Nat → List Segment → Nat → List Segment
  | 0, segs, _ => segs
  | fuel + 1, segs, i =>
    if h : i < segs.length then
      if (segs.get ⟨i, h⟩).is_ad then
        merge_outer fuel segs (i + 1)
      else if matches_transition (segs.get ⟨i, h⟩).text then
        merge_outer fuel (merge_walk (segs.length + 1) (markAd segs i) (i + 1)) (i + 1)
      else
        merge_outer fuel segs (i + 1)
    else segs

/-- `AdDetector._merge_adjacent_ads`: returns the input unchanged when no
segment is flagged, otherwise runs the coalescing pass.  (The Python method
mutates in place; the embedding returns the mutated list.) -/
def merge_adjacent_ads (segs : List Segment) : List Segment :=
  if segs.any (·.is_ad) then merge_outer (segs.length + 1) segs 0 else segs

/-- The accumulator loop of `AdDetector._get_ad_blocks`:
`cur` is `current_block`, the result collects closed blocks in order. -/
def ad_blocks_go (g : ℚ) : List Segment → List Segment → List (List Segment)
  | cur, [] => if cur.isEmpty then [] else [cur]
  | cur, s :: rest =>
    if s.is_ad then
      match cur.getLast? with
      | none => ad_blocks_go g [s] rest
      | some last =>
        if s.start - last.stop ≤ g then ad_blocks_go g (cur ++ [s]) rest
        else cur :: ad_blocks_go g [s] rest
    else
      if cur.isEmpty then ad_blocks_go g cur rest
      else cur :: ad_blocks_go g [] rest

/-- `AdDetector._get_ad_blocks` (default `max_gap = 5.0`). -/
def get_ad_blocks (g : ℚ) (segs : List Segment) : List (List Segment) :=
  ad_blocks_go g [] segs

/-! ### AudioProcessor interval merge (`audio_processor.py`) -/

/-- The order Python's `sorted` uses on `(start, end)` tuples:
lexicographic comparison.  It is total, transitive and antisymmetric, so the
sorted rearrangement is unique and any sorting algorithm matches Python's. -/
def pairLex (a b : ℚ × ℚ) : Prop :=
  a.1 < b.1 ∨ (a.1 = b.1 ∧ a.2 ≤ b.2)

instance : DecidableRel pairLex := fun a b => by
  unfold pairLex; infer_instance

instance : IsTotal (ℚ × ℚ) pairLex := by
  constructor
  intro a b
  rcases lt_trichotomy a.1 b.1 with h | h | h
  · exact Or.inl (Or.inl h)
  · rcases le_total a.2 b.2 with h2 | h2
    · exact Or.inl (Or.inr ⟨h, h2⟩)
    · exact Or.inr (Or.inr ⟨h.symm, h2⟩)
  · exact Or.inr (Or.inl h)

instance : IsTrans (ℚ × ℚ) pairLex := by
  constructor
  rintro a b c (hab | ⟨hab, hab2⟩) (hbc | ⟨hbc, hbc2⟩)
  · exact Or.inl (hab.trans hbc)
  · exact Or.inl (hbc ▸ hab)
  · exact Or.inl (hab ▸ hbc)
  · exact Or.inr ⟨hab.trans hbc, hab2.trans hbc2⟩

/-- `sorted(segments)` of `AudioProcessor._merge_segments`. -/
def sortPairs (l : List (ℚ × ℚ)) : List (ℚ × ℚ) :=
  List.insertionSort pairLex l

/-- The sweep loop of `AudioProcessor._merge_segments`: `cur` is the open
`(current_start, current_end)` interval. -/
def merge_go (cfg : AudioConfig) : (ℚ × ℚ) → List (ℚ × ℚ) → List (ℚ × ℚ)
  | cur, [] =>
    if cfg.min_duration ≤ cur.2 - cur.1 then [cur] else []
  | cur, (s, e) :: rest =>
    if s ≤ cur.2 + cfg.max_gap then
      merge_go cfg (cur.1, max cur.2 e) rest
    else if cfg.min_duration ≤ cur.2 - cur.1 then
      cur :: merge_go cfg (s, e) rest
    else
      merge_go cfg (s, e) rest

/-- `AudioProcessor._merge_segments`. -/
def merge_segments (cfg : AudioConfig) (segments : List (ℚ × ℚ)) : List (ℚ × ℚ) :=
  match sortPairs segments with
  | [] => []
  | c :: rest => merge_go cfg c rest

/-- `AudioProcessor._get_ad_segments`: intervals of ad-marked segments, then
merged. -/
def get_ad_segments (cfg : AudioConfig) (segs : List Segment) : List (ℚ × ℚ) :=
  merge_segments cfg ((segs.filter (·.is_ad)).map (fun s => (s.start, s.stop)))

/-! ### Messages and topics (`message_broker.py`) -/

/-- A JSON-ish payload value: the embedded handlers only ever read string
and boolean fields. -/
inductive Val where
  | str : String → Val
  | bool : Bool → Val
deriving DecidableEq, Repr

/-- `message_broker.Message`.  `message_id` is an opaque string (the Python
code mints a UUID; no claim depends on it). -/
structure Message where
  topic : String
  data : List (String × Val)
  message_id : String
  correlation_id : Option String
deriving DecidableEq, Repr

/-- `message.data.get(k)`. -/
def Message.get? (m : Message) (k : String) : Option Val :=
  (m.data.find? (fun p => p.1 == k)).map (·.2)

/-- `message.data.get(k)` followed by Python truthiness (`if not x`):
a missing key, a non-string value, and the empty string all count as
absent. -/
def Message.getStr (m : Message) (k : String) : Option String :=
  match m.get? k with
  | some (Val.str s) => if s.isEmpty then none else some s
  | _ => none

/-- `message.data.get(k)` read as a raw string with no truthiness test
(used for `error` fields). -/
def Message.getStrRaw (m : Message) (k : String) : Option String :=
  match m.get? k with
  | some (Val.str s) => some s
  | _ => none

/-- `message.correlation_id` followed by Python truthiness (`if not
request_id`), as the web-server handlers test it. -/
def Message.corr (m : Message) : Option String :=
  match m.correlation_id with
  | some s => if s.isEmpty then none else some s
  | none => none

-- `message_broker.Topics`.
namespace Topics

def DOWNLOAD_REQUEST : String := "podcast.download.request"
def DOWNLOAD_COMPLETE : String := "podcast.download.complete"
def DOWNLOAD_FAILED : String := "podcast.download.failed"
def TRANSCRIBE_REQUEST : String := "podcast.transcribe.request"
def TRANSCRIBE_COMPLETE : String := "podcast.transcribe.complete"
def TRANSCRIBE_FAILED : String := "podcast.transcribe.failed"
def AD_DETECTION_REQUEST : String := "podcast.ad_detection.request"
def AD_DETECTION_COMPLETE : String := "podcast.ad_detection.complete"
def AD_DETECTION_FAILED : String := "podcast.ad_detection.failed"
def AD_DETECTION_IN_PROGRESS : String := "podcast.ad_detection.in_progress"
def AUDIO_PROCESSING_REQUEST : String := "podcast.audio_processing.request"
def AUDIO_PROCESSING_COMPLETE : String := "podcast.audio_processing.complete"
def AUDIO_PROCESSING_FAILED : String := "podcast.audio_processing.failed"

end Topics

/-- Observable side effects of the workers.  Each constructor records one
piece of the "heavy work" the idempotence claims talk about, plus the file
writes and retry sleeps. -/
inductive Effect where
  | httpDownload : String → Effect
  | storageUpload : String → Effect
  | transcribeRun : String → Effect
  | classifyRun : String → Effect
  | audioLoad : String → Effect
  | render : String → String → Effect
  | fileWrite : String → Effect
  | transcriptWrite : String → List Segment → Effect
  | sleep : ℚ → Effect
deriving DecidableEq, Repr

/-! ### Classifier chunking and retry (`ad_detector.py`) -/

/-- One entry of the LLM response's `segments` array.  `ad = none` models a
JSON object missing the `"ad"` key (reading it raises `KeyError` in the
Python code). -/
structure RespEntry where
  id : Int
  ad : Option Bool
deriving DecidableEq, Repr

/-- The per-segment update loop of `AdDetector._process_chunk`: for each
segment, look up the first response entry with a matching id and copy its
`ad` flag.  Mirrors the in-place Python loop: when an entry has no `ad`
field the `KeyError` aborts the loop, keeping the updates already applied
and leaving the current and the remaining segments untouched. -/
def applyResponse : List Segment → List RespEntry → List Segment × Option String
  | [], _ => ([], none)
  | s :: rest, entries =>
    match entries.find? (fun r => r.id == s.id) with
    | none =>
      let x := applyResponse rest entries
      (s :: x.1, x.2)
    | some r =>
      match r.ad with
      | some b =>
        let x := applyResponse rest entries
        ({ s with is_ad := b } :: x.1, x.2)
      | none => (s :: rest, some "KeyError: ad")

/-- The retry loop of `AdDetector._process_chunk`.  `oracle k` is the
outcome of the `k`-th LLM call for this chunk (`Except.error` models any
exception raised by the call or the JSON parse, before any segment is
updated).  `remaining` counts the attempts still allowed, so the current
attempt index is `max_attempts - remaining`.  Returns the result, the
number of LLM calls made, and the list of `time.sleep` durations (the code
sleeps a fixed 2.0 s whenever a failed attempt is not the last one). -/
def process_chunk_go (oracle : Nat → Except String (List RespEntry))
    (cid max_attempts : Nat) :
    Nat → List Segment → Option String → ProcessingResult × Nat × List ℚ
  | 0, segs, last_error => (⟨cid, segs, last_error⟩, 0, [])
  | remaining + 1, segs, _ =>
    match oracle (max_attempts - (remaining + 1)) with
    | Except.ok entries =>
      match applyResponse segs entries with
      | (segsB, none) => (⟨cid, segsB, none⟩, 1, [])
      | (segsB, some e) =>
        let x := process_chunk_go oracle cid max_attempts remaining segsB (some e)
        (x.1, x.2.1 + 1, (if remaining = 0 then [] else [(2 : ℚ)]) ++ x.2.2)
    | Except.error e =>
      let x := process_chunk_go oracle cid max_attempts remaining segs (some e)
      (x.1, x.2.1 + 1, (if remaining = 0 then [] else [(2 : ℚ)]) ++ x.2.2)

/-- `AdDetector._process_chunk`. -/
def process_chunk (oracle : Nat → Except String (List RespEntry))
    (max_attempts : Nat) (chunk : TranscriptChunk) :
    ProcessingResult × Nat × List ℚ :=
  process_chunk_go oracle chunk.chunk_id max_attempts max_attempts
    chunk.segments none

/-- The slicing loop of `AdDetector._create_chunks`:
`transcript.segments[i:i+C]` with chunk id `i // C`, i.e. sequential ids.
`fuel` bounds recursion depth; each step consumes at least one segment, so
`fuel = segs.length` suffices (the source raises on `C = 0`; the model is
only used with the positive configured chunk size). -/
def create_chunks_go (csize : Nat) : Nat → List Segment → Nat → List TranscriptChunk
  | 0, _, _ => []
  | _ + 1, [], _ => []
  | fuel + 1, s :: rest, idx =>
    ⟨(s :: rest).take csize, idx⟩ ::
      create_chunks_go csize fuel (rest.drop (csize - 1)) (idx + 1)

/-- `AdDetector._create_chunks`. -/
def create_chunks (csize : Nat) (segs : List Segment) : List TranscriptChunk :=
  create_chunks_go csize segs.length segs 0

/-- The `processed_segments[segment.id] = segment` dictionary update of
`AdDetector.detect_ads` (replace if present, else append). -/
def dict_upsert (m : List (Int × Segment)) (s : Segment) : List (Int × Segment) :=
  if m.any (fun p => p.1 == s.id) then
    m.map (fun p => if p.1 == s.id then (p.1, s) else p)
  else m ++ [(s.id, s)]

/-- `AdDetector.detect_ads`: chunk, classify each chunk (collecting
per-chunk errors), recombine by ascending segment id, coalesce, and return
the segments plus the aggregated error strings.  Never fails: every
per-chunk error is caught inside `_process_chunk`. -/
def detect_ads (oracle : Nat → Nat → Except String (List RespEntry))
    (cfg : LLMConfig) (segments : List Segment) : List Segment × List String :=
  let chunks := create_chunks cfg.chunk_size segments
  let results := chunks.map fun c => (process_chunk (oracle c.chunk_id) cfg.max_attempts c).1
  let dict := results.foldl (fun m r => r.segments.foldl dict_upsert m) []
  let sortedKeys := List.insertionSort (fun a b : Int => a ≤ b) (dict.map (·.1))
  let all_results := sortedKeys.filterMap (fun k => (dict.find? (fun p => p.1 == k)).map (·.2))
  let errors := results.filterMap fun r =>
    r.error.map (fun e => "Chunk " ++ toString r.chunk_id ++ ": " ++ e)
  (merge_adjacent_ads all_results, errors)

/-- Association-list lookup, Python `dict.get`. -/
def lookupStr {α : Type} (l : List (String × α)) (k : String) : Option α :=
  (l.find? (fun p => p.1 == k)).map (·.2)

/-- Association-list update-or-append, Python `dict[k] = v`. -/
def upsertStr {α : Type} (l : List (String × α)) (k : String) (v : α) : List (String × α) :=
  if l.any (fun p => p.1 == k) then
    l.map (fun p => if p.1 == k then (k, v) else p)
  else l ++ [(k, v)]

/-! ### Persisted dedup-state layout

The fixed debug directory and the per-worker persistence paths, exactly as
constructed in the workers' `__init__` methods
(`os.path.join("debug_output", <name>)`). -/

def debug_dir : String := "debug_output"

/-- `PodcastDownloader.processed_files_path`. -/
def downloader_processed_files_path : String :=
  debug_dir ++ "/" ++ "downloader_processed_files.json"

/-- `PodcastDownloader.rss_feeds_path`. -/
def downloader_processed_rss_path : String :=
  debug_dir ++ "/" ++ "downloader_processed_rss.json"

/-- `Transcriber.processed_files_path`. -/
def transcriber_processed_files_path : String :=
  debug_dir ++ "/" ++ "transcriber_processed_files.json"

/-- `AdDetector.processed_files_path` (note: the source uses the plain name
`processed_files.json`). -/
def ad_detector_processed_files_path : String :=
  debug_dir ++ "/" ++ "processed_files.json"

/-- One file written to disk: a path plus the serialized JSON array of
strings (`json.dump(list(<set>), f)`). -/
structure FileWrite where
  path : String
  content : List String
deriving DecidableEq, Repr

/-- `PodcastDownloader._save_processed_data`: writes both dedup sets. -/
def downloader_save_processed_data (processed_files rss_feeds_processed : List String) :
    List FileWrite :=
  [⟨downloader_processed_files_path, processed_files⟩,
   ⟨downloader_processed_rss_path, rss_feeds_processed⟩]

/-- `Transcriber._save_processed_files`. -/
def transcriber_save_processed_files (processed_files : List String) : List FileWrite :=
  [⟨transcriber_processed_files_path, processed_files⟩]

/-- `AdDetector._save_processed_files`. -/
def ad_detector_save_processed_files (processed_files : List String) : List FileWrite :=
  [⟨ad_detector_processed_files_path, processed_files⟩]

/-! ### Downloader (`downloader.py`) -/

/-- Mutable state of `PodcastDownloader`, plus the observable object-store
contents (`storage` lists the keys for which `object_storage.exists` is
true). -/
structure DownloaderState where
  running : Bool
  processed_files : List String
  rss_feeds_processed : List String
  files_in_process : List String
  storage : List String
deriving DecidableEq, Repr

/-- `PodcastDownloader._generate_file_path`: `"podcasts/" + md5(url)`.
The md5 hex digest is abstracted as the function parameter `hash` (the
algorithms only need it to be a deterministic key). -/
def generate_file_path (hash : String → String) (url : String) : String :=
  "podcasts/" ++ hash url

/-- `PodcastDownloader.download`.  `net url` is the outcome of the HTTP GET
(and the subsequent storage upload; both failure modes raise and are folded
into one oracle).  Returns the updated state and storage key, or the
`DownloadError` string, plus the effect trace. -/
def download (hash : String → String) (net : String → Except String Unit)
    (st : DownloaderState) (url : String) :
    Except String (DownloaderState × String) × List Effect :=
  let key := generate_file_path hash url
  if st.storage.contains key then (Except.ok (st, key), [])
  else
    match net url with
    | Except.error e =>
      (Except.error ("Failed to download podcast: " ++ e), [Effect.httpDownload url])
    | Except.ok _ =>
      (Except.ok
        ({ st with
            storage := key :: st.storage
            processed_files := url :: st.processed_files }, key),
       [Effect.httpDownload url, Effect.storageUpload key,
        Effect.fileWrite downloader_processed_files_path,
        Effect.fileWrite downloader_processed_rss_path])

/-- `PodcastDownloader._handle_download_request`. -/
def handle_download_request (hash : String → String)
    (net : String → Except String Unit) (st : DownloaderState) (m : Message) :
    DownloaderState × List Message × List Effect :=
  if !st.running then (st, [], [])
  else
    match m.getStr "url" with
    | none =>
      (st, [⟨Topics.DOWNLOAD_FAILED, [("error", Val.str "No URL provided")], "",
             m.correlation_id⟩], [])
    | some url =>
      if st.processed_files.contains url
          && st.storage.contains (generate_file_path hash url) then
        (st, [⟨Topics.DOWNLOAD_COMPLETE,
               [("url", Val.str url),
                ("file_path", Val.str (generate_file_path hash url)),
                ("already_processed", Val.bool true)], "",
               m.correlation_id⟩], [])
      else if st.files_in_process.contains url then
        (st, [⟨Topics.DOWNLOAD_FAILED,
               [("url", Val.str url),
                ("error", Val.str "File is already being downloaded")], "",
               m.correlation_id⟩], [])
      else
        let st1 := { st with files_in_process := url :: st.files_in_process }
        let dl := download hash net st1 url
        match dl.1 with
        | Except.ok p =>
          ({ p.1 with files_in_process := p.1.files_in_process.erase url },
           [⟨Topics.DOWNLOAD_COMPLETE,
             [("url", Val.str url), ("file_path", Val.str p.2)], "",
             m.correlation_id⟩], dl.2)
        | Except.error e =>
          ({ st1 with files_in_process := st1.files_in_process.erase url },
           [⟨Topics.DOWNLOAD_FAILED,
             [("url", Val.str url), ("error", Val.str e)], "",
             m.correlation_id⟩], dl.2)

/-! ### Transcriber (`transcriber.py`) -/

/-- Mutable state of `Transcriber`. -/
structure TranscriberState where
  running : Bool
  processed_files : List String
  files_in_process : List String
deriving DecidableEq, Repr

/-- `Transcriber.transcribe` (with `cache=True`, as the handler calls it):
`files_exist` is `os.path.exists`, `cache_load` the cached-transcript read
(`none` models the caught cache-load exception, after which the code falls
through to a fresh transcription), `rec` the whisper model run. -/
def transcribe (files_exist : String → Bool)
    (cache_load : String → Option (List Segment))
    (rec : String → Except String (List Segment)) (audio_file : String) :
    Except String (List Segment) × List Effect :=
  let tf := audio_file ++ ".transcript.json"
  match (if files_exist tf then cache_load tf else none) with
  | some segs => (Except.ok segs, [])
  | none =>
    match rec audio_file with
    | Except.ok segs =>
      (Except.ok segs, [Effect.transcribeRun audio_file, Effect.fileWrite tf])
    | Except.error e =>
      (Except.error ("Failed to transcribe audio: " ++ e),
       [Effect.transcribeRun audio_file])

/-- `Transcriber._handle_transcription_request`. -/
def handle_transcription_request (files_exist : String → Bool)
    (cache_load : String → Option (List Segment))
    (rec : String → Except String (List Segment))
    (st : TranscriberState) (m : Message) :
    TranscriberState × List Message × List Effect :=
  if !st.running then (st, [], [])
  else
    match m.getStr "file_path" with
    | none =>
      (st, [⟨Topics.TRANSCRIBE_FAILED, [("error", Val.str "No file path provided")], "",
             m.correlation_id⟩], [])
    | some fp =>
      if st.processed_files.contains fp then
        (st, [⟨Topics.TRANSCRIBE_COMPLETE,
               [("file_path", Val.str fp),
                ("transcript_path", Val.str (fp ++ ".transcript.json")),
                ("already_processed", Val.bool true)], "",
               m.correlation_id⟩], [])
      else if st.files_in_process.contains fp then
        (st, [⟨Topics.TRANSCRIBE_FAILED,
               [("file_path", Val.str fp),
                ("error", Val.str "File is already being processed")], "",
               m.correlation_id⟩], [])
      else
        let tr := transcribe files_exist cache_load rec fp
        match tr.1 with
        | Except.ok _ =>
          ({ st with processed_files := fp :: st.processed_files },
           [⟨Topics.TRANSCRIBE_COMPLETE,
             [("file_path", Val.str fp),
              ("transcript_path", Val.str (fp ++ ".transcript.json"))], "",
             m.correlation_id⟩],
           tr.2 ++ [Effect.fileWrite transcriber_processed_files_path])
        | Except.error e =>
          (st, [⟨Topics.TRANSCRIBE_FAILED,
                 [("file_path", Val.str fp), ("error", Val.str e)], "",
                 m.correlation_id⟩], tr.2)

/-! ### AdDetector message handler (`ad_detector.py`) -/

/-- Mutable state of `AdDetector`. -/
structure AdDetectorState where
  running : Bool
  processed_files : List String
  files_in_process : List String
deriving DecidableEq, Repr

/-- `AdDetector._handle_ad_detection_request`.  `files tp` is the
transcript load (`Except.error` models the raised exception's string). -/
def handle_ad_detection_request (files : String → Except String (List Segment))
    (oracle : Nat → Nat → Except String (List RespEntry)) (cfg : LLMConfig)
    (st : AdDetectorState) (m : Message) :
    AdDetectorState × List Message × List Effect :=
  if !st.running then (st, [], [])
  else
    match m.getStr "file_path", m.getStr "transcript_path" with
    | some fp, some tp =>
      if st.processed_files.contains fp then
        (st, [⟨Topics.AD_DETECTION_COMPLETE,
               [("file_path", Val.str fp), ("transcript_path", Val.str tp),
                ("already_processed", Val.bool true)], "",
               m.correlation_id⟩], [])
      else if st.files_in_process.contains fp then
        (st, [⟨Topics.AD_DETECTION_IN_PROGRESS,
               [("file_path", Val.str fp), ("transcript_path", Val.str tp)], "",
               m.correlation_id⟩], [])
      else
        match files tp with
        | Except.error e =>
          (st, [⟨Topics.AD_DETECTION_FAILED,
                 [("file_path", Val.str fp), ("error", Val.str e)], "",
                 m.correlation_id⟩], [])
        | Except.ok segs =>
          let result := detect_ads oracle cfg segs
          ({ st with processed_files := fp :: st.processed_files },
           [⟨Topics.AD_DETECTION_COMPLETE,
             [("file_path", Val.str fp), ("transcript_path", Val.str tp)], "",
             m.correlation_id⟩],
           [Effect.classifyRun fp, Effect.transcriptWrite tp result.1,
            Effect.fileWrite ad_detector_processed_files_path])
    | _, _ =>
      (st, [⟨Topics.AD_DETECTION_FAILED,
             [("error", Val.str "Missing file_path or transcript_path")], "",
             m.correlation_id⟩], [])

/-! ### AudioProcessor message handler (`audio_processor.py`) -/

/-- `os.path.splitext`-based `f"{base}_clean{ext}"` of
`_handle_audio_processing_request`: split at the last dot; paths without a
dot get a bare `_clean` suffix.  (Python's `splitext` additionally ignores
dots in directory components and leading dots; the pipeline's storage keys
`podcasts/<md5>` never contain those, so the simple last-dot split
coincides on every path the handler sees.) -/
def clean_output_path (p : String) : String :=
  let r := p.data.reverse
  match r.findIdx? (· == '.') with
  | none => p ++ "_clean"
  | some i =>
    String.mk (r.drop (i + 1)).reverse ++ "_clean." ++ String.mk (r.take i).reverse

/-- `AudioProcessor.remove_ads`: load audio, compute the merged cut set,
return the input unchanged when it is empty, else re-render.  Returns the
output path and effect trace. -/
def remove_ads (cfg : AudioConfig) (input_file output_file : String)
    (segs : List Segment) : String × List Effect :=
  let ad_segs := get_ad_segments cfg segs
  if ad_segs.isEmpty then (input_file, [Effect.audioLoad input_file])
  else (output_file, [Effect.audioLoad input_file, Effect.render input_file output_file])

/-- `AudioProcessor._handle_audio_processing_request`.  Note: unlike the
other three workers this handler keeps no `processed`/`in_flight` state at
all. -/
def handle_audio_processing_request (files : String → Except String (List Segment))
    (cfg : AudioConfig) (running : Bool) (m : Message) :
    List Message × List Effect :=
  if !running then ([], [])
  else
    match m.getStr "file_path", m.getStr "transcript_path" with
    | some fp, some tp =>
      match files tp with
      | Except.error e =>
        ([⟨Topics.AUDIO_PROCESSING_FAILED,
           [("file_path", Val.str fp), ("error", Val.str e)], "",
           m.correlation_id⟩], [])
      | Except.ok segs =>
        let out := clean_output_path fp
        let processed := remove_ads cfg fp out segs
        ([⟨Topics.AUDIO_PROCESSING_COMPLETE,
           [("input_path", Val.str fp), ("output_path", Val.str processed.1)], "",
           m.correlation_id⟩], processed.2)
    | _, _ =>
      ([⟨Topics.AUDIO_PROCESSING_FAILED,
         [("error", Val.str "Missing file_path or transcript_path")], "",
         m.correlation_id⟩], [])

/-! ### Web server (`web_server.py`) -/

/-- One element of a request's `steps` list. -/
structure StepRec where
  name : String
  status : String
  timestamp : Nat
  error : Option String
  download_url : Option String
deriving DecidableEq, Repr

/-- One entry of `pending_requests` (the spec's RequestState). -/
structure RequestState where
  request_id : String
  reqtype : String
  url : String
  status : String
  created_at : Nat
  updated_at : Nat
  steps : List StepRec
deriving DecidableEq, Repr

/-- The broker-driven state of `WebServer` (timestamps are abstract `Nat`
ticks passed in by the caller). -/
structure WebState where
  pending_requests : List (String × RequestState)
  file_mappings : List (String × String)
  url_to_file : List (String × String)
deriving DecidableEq, Repr

/-- `WebServer.add_pending_request`. -/
def add_pending_request (st : WebState) (request_id rtype url : String) (now : Nat) :
    WebState :=
  { st with
      pending_requests := upsertStr st.pending_requests request_id
        ⟨request_id, rtype, url, "processing", now, now,
         [⟨"submitted", "completed", now, none, none⟩]⟩ }

/-- `WebServer.update_request_status`: unknown request ids are logged and
ignored, leaving the state untouched. -/
def update_request_status (st : WebState) (request_id status : String)
    (step : Option StepRec) (now : Nat) : WebState :=
  match lookupStr st.pending_requests request_id with
  | none => st
  | some rs =>
    { st with
        pending_requests := upsertStr st.pending_requests request_id
          { rs with
              status := status
              updated_at := now
              steps := rs.steps ++ step.toList } }

/-- `RequestHandler._handle_process_request` (the broker-visible part: the
cached-blob short-circuit, request registration and the initial
`DOWNLOAD_REQUEST`; HTTP response writing is not modelled).  `request_id`
is the freshly minted UUID, `storage_exists` the object-store probe. -/
def handle_process_request (st : WebState) (storage_exists : String → Bool)
    (request_id : String) (now : Nat) (url : String) : WebState × List Message :=
  if url.isEmpty then (st, [])
  else
    let dispatch :=
      (add_pending_request st request_id "process" url now,
       [(⟨Topics.DOWNLOAD_REQUEST, [("url", Val.str url)], "",
          some request_id⟩ : Message)])
    match lookupStr st.url_to_file url with
    | some fp => if storage_exists fp then (st, []) else dispatch
    | none => dispatch

/-- `WebServer._handle_download_complete`. -/
def handle_download_complete (st : WebState) (now : Nat) (m : Message) :
    WebState × List Message :=
  match m.corr, m.getStr "file_path" with
  | some rid, some fp =>
    (update_request_status st rid "processing"
       (some ⟨"download", "completed", now, none, none⟩) now,
     [⟨Topics.TRANSCRIBE_REQUEST, [("file_path", Val.str fp)], "", some rid⟩])
  | _, _ => (st, [])

/-- `WebServer._handle_transcription_complete`. -/
def handle_transcription_complete (st : WebState) (now : Nat) (m : Message) :
    WebState × List Message :=
  match m.corr, m.getStr "file_path", m.getStr "transcript_path" with
  | some rid, some fp, some tp =>
    (update_request_status st rid "processing"
       (some ⟨"transcription", "completed", now, none, none⟩) now,
     [⟨Topics.AD_DETECTION_REQUEST,
       [("file_path", Val.str fp), ("transcript_path", Val.str tp)], "",
       some rid⟩])
  | _, _, _ => (st, [])

/-- `WebServer._handle_ad_detection_complete`. -/
def handle_ad_detection_complete (st : WebState) (now : Nat) (m : Message) :
    WebState × List Message :=
  match m.corr, m.getStr "file_path", m.getStr "transcript_path" with
  | some rid, some fp, some tp =>
    (update_request_status st rid "processing"
       (some ⟨"ad_detection", "completed", now, none, none⟩) now,
     [⟨Topics.AUDIO_PROCESSING_REQUEST,
       [("file_path", Val.str fp), ("transcript_path", Val.str tp)], "",
       some rid⟩])
  | _, _, _ => (st, [])

/-- `config.WebServerConfig` (the fields the completion handler reads). -/
structure WebServerConfig where
  host : String
  port : Nat
  use_https : Bool
deriving DecidableEq, Repr

/-- `WebServer.add_file_mapping`: mint `file_id`, record the mapping, and
back-fill `url_to_file` from the request's original URL. -/
def add_file_mapping (st : WebState) (file_id request_id file_path : String) :
    WebState :=
  let st1 := { st with file_mappings := upsertStr st.file_mappings file_id file_path }
  match lookupStr st.pending_requests request_id with
  | none => st1
  | some rs =>
    if rs.url.isEmpty then st1
    else { st1 with url_to_file := upsertStr st1.url_to_file rs.url file_path }

/-- `WebServer._handle_audio_processing_complete`: registers the download
mapping, builds the download URL, marks the request completed; publishes
nothing.  `file_id` is the freshly minted UUID. -/
def handle_audio_processing_complete (cfg : WebServerConfig) (file_id : String)
    (st : WebState) (now : Nat) (m : Message) : WebState × List Message :=
  match m.corr, m.getStr "output_path" with
  | some rid, some op =>
    let st1 := add_file_mapping st file_id rid op
    let host := if cfg.host == "0.0.0.0" then "localhost" else cfg.host
    let protocol := if cfg.use_https then "https" else "http"
    let durl := protocol ++ "://" ++ host ++ ":" ++ toString cfg.port
      ++ "/download/" ++ file_id
    (update_request_status st1 rid "completed"
       (some ⟨"audio_processing", "completed", now, none, some durl⟩) now, [])
  | _, _ => (st, [])

/-- The shared shape of the web server's five `_handle_*_failed` methods:
mark the request failed, append a failed step carrying the message's
`error` field, dispatch nothing. -/
def handle_stage_failed (stage : String) (st : WebState) (now : Nat) (m : Message) :
    WebState × List Message :=
  match m.corr with
  | none => (st, [])
  | some rid =>
    (update_request_status st rid "failed"
       (some ⟨stage, "failed", now, m.getStrRaw "error", none⟩) now, [])

/-- `WebServer._handle_download_failed`. -/
def handle_download_failed : WebState → Nat → Message → WebState × List Message :=
  handle_stage_failed "download"

/-- `WebServer._handle_transcription_failed`. -/
def handle_transcription_failed : WebState → Nat → Message → WebState × List Message :=
  handle_stage_failed "transcription"

/-- `WebServer._handle_ad_detection_failed`. -/
def handle_ad_detection_failed : WebState → Nat → Message → WebState × List Message :=
  handle_stage_failed "ad_detection"

/-- `WebServer._handle_audio_processing_failed`. -/
def handle_audio_processing_failed : WebState → Nat → Message → WebState × List Message :=
  handle_stage_failed "audio_processing"

/-- `WebServer._handle_rss_download_failed`. -/
def handle_rss_download_failed : WebState → Nat → Message → WebState × List Message :=
  handle_stage_failed "rss_download"

/-! ### Message broker (`message_broker.py`) -/

/-- A subscribed callback: an identity plus its behaviour; `Except.error`
models the callback raising (the broker catches and logs it). -/
structure BrokerHandler where
  id : Nat
  behave : Message → Except String Unit

/-- `InMemoryMessageBroker` state. -/
structure InMemoryBroker where
  subscribers : List (String × List BrokerHandler)
  running : Bool

/-- `InMemoryMessageBroker.subscribe`. -/
def broker_subscribe (b : InMemoryBroker) (topic : String) (h : BrokerHandler) :
    InMemoryBroker :=
  match lookupStr b.subscribers topic with
  | some hs => { b with subscribers := upsertStr b.subscribers topic (hs ++ [h]) }
  | none => { b with subscribers := b.subscribers ++ [(topic, [h])] }

/-- The `for callback in self.subscribers[message.topic]` loop: every
callback is invoked in order, each inside its own `try/except`, so a
raising callback never prevents the later ones.  Returns the invocation
trace (callback id, outcome). -/
def dispatch (m : Message) : List BrokerHandler → List (Nat × Except String Unit)
  | [] => []
  | h :: rest => (h.id, h.behave m) :: dispatch m rest

/-- `InMemoryMessageBroker.publish`: a warning-only no-op when not running,
otherwise synchronous fan-out to the topic's subscribers in subscription
order.  Returns the (unchanged) broker state and the invocation trace. -/
def broker_publish (b : InMemoryBroker) (m : Message) :
    InMemoryBroker × List (Nat × Except String Unit) :=
  if !b.running then (b, [])
  else
    match lookupStr b.subscribers m.topic with
    | none => (b, [])
    | some hs => (b, dispatch m hs)

/-- `MQTTMessageBroker._on_message`: decode the payload (a decode failure
is caught and dispatches nothing), then fan out to the topic's callbacks
with the same per-callback exception isolation. -/
def mqtt_on_message (callbacks : List (String × List BrokerHandler))
    (topic : String) (payload : Except String Message) :
    List (Nat × Except String Unit) :=
  match payload with
  | Except.error _ => []
  | Except.ok msg =>
    match lookupStr callbacks topic with
    | none => []
    | some hs => dispatch msg hs

/-! ### Claim-statement helpers -/

/-- `segments[j].text` with a default (claim statements only index in
range). -/
def textAt (segs : List Segment) (j : Nat) : String :=
  match segs[j]? with
  | some s => s.text
  | none => ""

/-- `segments[j].start` with a default. -/
def startAt (segs : List Segment) (j : Nat) : ℚ :=
  match segs[j]? with
  | some s => s.start
  | none => 0

/-- `segments[j].end` with a default. -/
def stopAt (segs : List Segment) (j : Nat) : ℚ :=
  match segs[j]? with
  | some s => s.stop
  | none => 0

/-- The spec's ad-block monotonicity property, stated verbatim: whenever
positions `i < k` are both ad-marked, every strictly intermediate `j` is
ad-marked or separated from its successor by a gap strictly above 5
seconds. -/
def ad_block_monotone (segs : List Segment) : Prop :=
  ∀ i k j : Nat, i < j → j < k → k < segs.length →
    adAt segs i = true → adAt segs k = true →
    adAt segs j = true ∨ (5 : ℚ) < startAt segs (j + 1) - stopAt segs j

/-! ### Concrete fixtures used by witnesses and counterexamples -/

/-- Shorthand segment constructor for fixtures. -/
def mkSeg (i : Int) (t : String) (a b : ℚ) (ad : Bool) : Segment :=
  ⟨i, t, a, b, ad⟩

/-- The spec's scenario 5: 12 segments, ids 147 through 158, contiguous
2-second timing; ids 154 through 157 flagged by the LLM pass; the texts of
148 and 149 contain the transition phrase
"nach einer kurzen unterbrechung"; no other text matches a transition
phrase or promotional indicator. -/
def c7segs : List Segment :=
  [mkSeg 147 "hallo und willkommen" 0 2 false,
   mkSeg 148 "wir horen uns nach einer kurzen unterbrechung wieder" 2 4 false,
   mkSeg 149 "ja nach einer kurzen unterbrechung geht es los" 4 6 false,
   mkSeg 150 "etwas text" 6 8 false,
   mkSeg 151 "noch etwas text" 8 10 false,
   mkSeg 152 "mehr text" 10 12 false,
   mkSeg 153 "und text" 12 14 false,
   mkSeg 154 "kaufen sie dieses produkt" 14 16 true,
   mkSeg 155 "es ist sehr gut" 16 18 true,
   mkSeg 156 "greifen sie zu" 18 20 true,
   mkSeg 157 "nur heute im angebot" 20 22 true,
   mkSeg 158 "willkommen zurueck zur sendung" 22 24 false]

/-- Scenario 5, second half: the same transcript with all of ids 148
through 157 LLM-marked. -/
def c7segsB : List Segment :=
  c7segs.map (fun s => if 148 ≤ s.id ∧ s.id ≤ 157 then { s with is_ad := true } else s)

/-- Two LLM-marked ads around one clean segment whose gap to its successor
is 0 s; no text matches any phrase set. -/
def c3segs : List Segment :=
  [mkSeg 0 "a" 0 1 true, mkSeg 1 "b" 2 3 false, mkSeg 2 "c" 3 4 true]

/-- A single unflagged segment whose text is itself a transition phrase. -/
def c10segs : List Segment :=
  [mkSeg 0 "nach einer kurzen unterbrechung" 0 1 false]

/-- Transcript store for the audio-processor fixtures: one ad-marked
segment of 10 seconds at `podcasts/abc.mp3.transcript.json`. -/
def c2files : String → Except String (List Segment) :=
  fun tp =>
    if tp == "podcasts/abc.mp3.transcript.json" then
      Except.ok [mkSeg 0 "werbung" 0 10 true]
    else Except.error "transcript not found"

/-- The audio configuration defaults (`min_duration=5.0`, `max_gap=20.0`). -/
def c2cfg : AudioConfig := ⟨5, 20⟩

/-- The `AUDIO_PROCESSING_REQUEST` a second identical submission produces
(same paths, fresh correlation id). -/
def c2msg : Message :=
  ⟨Topics.AUDIO_PROCESSING_REQUEST,
   [("file_path", Val.str "podcasts/abc.mp3"),
    ("transcript_path", Val.str "podcasts/abc.mp3.transcript.json")], "",
   some "R2"⟩

/-- Downloader state after a completed first run of `"http://u"` (hash
`"h"`), for the short-circuit witness. -/
def c2dlstate : DownloaderState :=
  ⟨true, ["http://u"], [], [], ["podcasts/h"]⟩

/-- An oracle whose every attempt parses but whose second entry has no
`"ad"` key, so each application attempt mutates segment 0 and then raises
`KeyError`. -/
def c5oracle : Nat → Except String (List RespEntry) :=
  fun _ => Except.ok [⟨0, some true⟩, ⟨1, none⟩]

/-- A two-segment chunk for the retry fixtures. -/
def c5chunk : TranscriptChunk :=
  ⟨[mkSeg 0 "a" 0 1 false, mkSeg 1 "b" 1 2 false], 0⟩

/-- Distinct per-attempt error strings for the all-attempts-fail witness. -/
def c5errs : Nat → String :=
  fun k => "attempt " ++ toString k ++ " failed"

/-- An `AD_DETECTION_REQUEST` for the transcript served by `c2files`. -/
def c5admsg : Message :=
  ⟨Topics.AD_DETECTION_REQUEST,
   [("file_path", Val.str "podcasts/abc.mp3"),
    ("transcript_path", Val.str "podcasts/abc.mp3.transcript.json")], "",
   some "R"⟩

/-- A broker handler that always raises. -/
def c9throwing : BrokerHandler :=
  ⟨0, fun _ => Except.error "boom"⟩

/-- A broker handler that succeeds. -/
def c9ok : BrokerHandler :=
  ⟨1, fun _ => Except.ok ()⟩

/-- A started broker with the two fixture handlers subscribed to `"t"`, the
raising one first. -/
def c9broker : InMemoryBroker :=
  ⟨[("t", [c9throwing, c9ok])], true⟩

/-- A bare fixture message on topic `"t"`. -/
def c9msg : Message := ⟨"t", [], "", none⟩

/-- The `DOWNLOAD_REQUEST` of a second submission of `"http://u"`. -/
def c2dlmsg : Message :=
  ⟨Topics.DOWNLOAD_REQUEST, [("url", Val.str "http://u")], "", some "R2"⟩

/-- Transcriber state after a completed first run of blob `podcasts/h`. -/
def c2trstate : TranscriberState := ⟨true, ["podcasts/h"], []⟩

/-- The `TRANSCRIBE_REQUEST` of the second submission. -/
def c2trmsg : Message :=
  ⟨Topics.TRANSCRIBE_REQUEST, [("file_path", Val.str "podcasts/h")], "", some "R2"⟩

/-- AdDetector state after a completed first run of blob `podcasts/h`. -/
def c2adstate : AdDetectorState := ⟨true, ["podcasts/h"], []⟩

/-- The `AD_DETECTION_REQUEST` of the second submission. -/
def c2admsg : Message :=
  ⟨Topics.AD_DETECTION_REQUEST,
   [("file_path", Val.str "podcasts/h"),
    ("transcript_path", Val.str "podcasts/h.transcript.json")], "",
   some "R2"⟩

/-- A web-server state with one known in-flight request `"R"`. -/
def c6state : WebState :=
  ⟨[("R", ⟨"R", "process", "http://u", "processing", 0, 0,
      [⟨"submitted", "completed", 0, none, none⟩]⟩)], [], []⟩

/-- A `DOWNLOAD_FAILED` message for request `"R"`. -/
def c6msg : Message :=
  ⟨Topics.DOWNLOAD_FAILED,
   [("url", Val.str "http://u"), ("error", Val.str "HTTP 404")], "",
   some "R"⟩

/-- The state-and-output every web `_handle_*_failed` method produces for a
known request: status `"failed"`, one appended failed step carrying the
message's `error`, nothing published. -/
def failed_update (stage : String) (st : WebState) (now : Nat) (m : Message)
    (rid : String) (rs : RequestState) : WebState × List Message :=
  ({ st with
      pending_requests := upsertStr st.pending_requests rid
        { rs with
            status := "failed"
            updated_at := now
            steps := rs.steps ++ [⟨stage, "failed", now, m.getStrRaw "error", none⟩] } },
   [])

/-! ## Theorems -/

/-- A truthy correlation id is the raw correlation id. -/
theorem corr_eq_correlation {m : Message} {r : String} (h : m.corr = some r) :
    m.correlation_id = some r := by
  unfold Message.corr at h
  cases hm : m.correlation_id with
  | none => rw [hm] at h; exact absurd h (by simp)
  | some s =>
    rw [hm] at h
    by_cases hs : s.isEmpty
    · simp [hs] at h
    · simp [hs] at h
      rw [h]

/-- `dispatch` invokes every handler of the list in order, whatever each
one's outcome. -/
theorem dispatch_eq_map (m : Message) :
    ∀ hs : List BrokerHandler, dispatch m hs = hs.map (fun h => (h.id, h.behave m)) := by
  intro hs
  induction hs with
  | nil => rfl
  | cons h t ih => simp [dispatch, ih]

/-- C10: if no segment of the input list is marked `is_ad`,
`AdDetector._merge_adjacent_ads` returns immediately and leaves every
segment unchanged; in particular a transition-phrase segment is never
marked unless some segment was already flagged before coalescing. -/
theorem c10_merge_adjacent_ads_no_ads (segs : List Segment)
    (h : ∀ s ∈ segs, s.is_ad = false) : merge_adjacent_ads segs = segs := by
  unfold merge_adjacent_ads
  have hany : segs.any (·.is_ad) = false := by
    simp only [List.any_eq_false]
    intro s hs
    simp [h s hs]
  simp [hany]

/-- Witness for C10: a one-element list whose text is itself a transition
phrase, yet unflagged, comes back unchanged. -/
theorem c10_merge_adjacent_ads_no_ads_witness :
    merge_adjacent_ads c10segs = c10segs :=
  c10_merge_adjacent_ads_no_ads c10segs (by decide)

/-- C7: on the spec's 12-segment scenario (ids 147 through 158, LLM marks
154 through 157, texts of 148 and 149 contain
"nach einer kurzen unterbrechung", no other phrase matches), coalescing
marks exactly ids 148, 149, 154, 155, 156, 157; and when all of 148
through 157 are LLM-marked, `_get_ad_blocks` returns exactly one block of
10 segments. -/
theorem c7_scenario :
    (merge_adjacent_ads c7segs).filterMap
        (fun s => if s.is_ad then some s.id else none)
      = [148, 149, 154, 155, 156, 157]
    ∧ (get_ad_blocks 5 c7segsB).map List.length = [10] := by
  constructor
  · decide
  · decide

/-- C8 counterexample: the AdDetector's dedup set is persisted at
`debug_output/processed_files.json`, not at the claimed
`debug_output/ad_detector_processed_files.json`. -/
theorem c8_counterexample :
    (ad_detector_save_processed_files ["podcasts/k"]).map FileWrite.path
      = ["debug_output/processed_files.json"]
    ∧ "debug_output/processed_files.json"
      ≠ "debug_output/ad_detector_processed_files.json" := by
  constructor
  · decide
  · decide

/-- C8 (amended): each dedup set is persisted under the fixed debug
directory as one JSON array of strings; the Downloader writes
`downloader_processed_files.json` and `downloader_processed_rss.json`, the
Transcriber `transcriber_processed_files.json`, and the AdDetector
`processed_files.json` (not the claimed
`ad_detector_processed_files.json`). -/
theorem c8_persisted_state_layout (pf rss tf af : List String) :
    downloader_save_processed_data pf rss
        = [⟨"debug_output/downloader_processed_files.json", pf⟩,
           ⟨"debug_output/downloader_processed_rss.json", rss⟩]
    ∧ transcriber_save_processed_files tf
        = [⟨"debug_output/transcriber_processed_files.json", tf⟩]
    ∧ ad_detector_save_processed_files af
        = [⟨"debug_output/processed_files.json", af⟩] :=
  ⟨rfl, rfl, rfl⟩

/-- C9: the in-memory broker's `publish` is a state-preserving no-op when
the broker is not running; when running it invokes every handler subscribed
to the message's topic, in subscription order, and a raising handler (an
`Except.error` outcome in the trace) never prevents the invocation of the
later ones — the trace is always the full `map` over the subscriber list,
whatever the individual outcomes.  The MQTT broker's `_on_message` fans out
with the same per-callback isolation, and a payload that fails to decode
dispatches nothing. -/
theorem c9_broker_publish :
    (∀ (subs : List (String × List BrokerHandler)) (m : Message),
      broker_publish ⟨subs, false⟩ m = (⟨subs, false⟩, []))
    ∧ (∀ (subs : List (String × List BrokerHandler)) (m : Message)
        (hs : List BrokerHandler), lookupStr subs m.topic = some hs →
        broker_publish ⟨subs, true⟩ m
          = (⟨subs, true⟩, hs.map (fun h => (h.id, h.behave m))))
    ∧ (∀ (subs : List (String × List BrokerHandler)) (m : Message),
        lookupStr subs m.topic = none →
        broker_publish ⟨subs, true⟩ m = (⟨subs, true⟩, []))
    ∧ (∀ (cbs : List (String × List BrokerHandler)) (topic : String)
        (msg : Message) (hs : List BrokerHandler),
        lookupStr cbs topic = some hs →
        mqtt_on_message cbs topic (Except.ok msg)
          = hs.map (fun h => (h.id, h.behave msg)))
    ∧ (∀ (cbs : List (String × List BrokerHandler)) (topic e : String),
        mqtt_on_message cbs topic (Except.error e) = []) := by
  refine ⟨?_, ?_, ?_, ?_, ?_⟩
  · intro subs m
    rfl
  · intro subs m hs h
    simp [broker_publish, h, dispatch_eq_map]
  · intro subs m h
    simp [broker_publish, h]
  · intro cbs topic msg hs h
    simp [mqtt_on_message, h, dispatch_eq_map]
  · intro cbs topic e
    rfl

/-- Witness for C9: on a running broker whose topic has a raising handler
followed by a succeeding one, both are invoked in order. -/
theorem c9_broker_publish_witness :
    broker_publish c9broker c9msg
      = (c9broker, [(0, Except.error "boom"), (1, Except.ok ())]) :=
  c9_broker_publish.2.1 [("t", [c9throwing, c9ok])] c9msg [c9throwing, c9ok] rfl

/-- C6: every web-server `*_FAILED` handler, on a message whose correlation
id names a known request, sets that request's status to `"failed"`, appends
a failed step carrying the message's `error`, and publishes nothing; on an
unknown correlation id it neither creates nor modifies any request state. -/
theorem c6_failed_handling :
    (∀ (st : WebState) (now : Nat) (m : Message) (rid : String)
        (rs : RequestState), m.corr = some rid →
        lookupStr st.pending_requests rid = some rs →
        handle_download_failed st now m = failed_update "download" st now m rid rs
        ∧ handle_transcription_failed st now m
            = failed_update "transcription" st now m rid rs
        ∧ handle_ad_detection_failed st now m
            = failed_update "ad_detection" st now m rid rs
        ∧ handle_audio_processing_failed st now m
            = failed_update "audio_processing" st now m rid rs
        ∧ handle_rss_download_failed st now m
            = failed_update "rss_download" st now m rid rs)
    ∧ (∀ (st : WebState) (now : Nat) (m : Message) (rid : String),
        m.corr = some rid →
        lookupStr st.pending_requests rid = none →
        handle_download_failed st now m = (st, [])
        ∧ handle_transcription_failed st now m = (st, [])
        ∧ handle_ad_detection_failed st now m = (st, [])
        ∧ handle_audio_processing_failed st now m = (st, [])
        ∧ handle_rss_download_failed st now m = (st, [])) := by
  have known : ∀ (stage : String) (st : WebState) (now : Nat) (m : Message)
      (rid : String) (rs : RequestState), m.corr = some rid →
      lookupStr st.pending_requests rid = some rs →
      handle_stage_failed stage st now m = failed_update stage st now m rid rs := by
    intro stage st now m rid rs hc hl
    unfold handle_stage_failed update_request_status failed_update
    rw [hc]
    simp [hl]
  have unknown : ∀ (stage : String) (st : WebState) (now : Nat) (m : Message)
      (rid : String), m.corr = some rid →
      lookupStr st.pending_requests rid = none →
      handle_stage_failed stage st now m = (st, []) := by
    intro stage st now m rid hc hl
    unfold handle_stage_failed update_request_status
    rw [hc]
    simp [hl]
  constructor
  · intro st now m rid rs hc hl
    exact ⟨known _ st now m rid rs hc hl, known _ st now m rid rs hc hl,
      known _ st now m rid rs hc hl, known _ st now m rid rs hc hl,
      known _ st now m rid rs hc hl⟩
  · intro st now m rid hc hl
    exact ⟨unknown _ st now m rid hc hl, unknown _ st now m rid hc hl,
      unknown _ st now m rid hc hl, unknown _ st now m rid hc hl,
      unknown _ st now m rid hc hl⟩

/-- Witness for C6: a concrete `DOWNLOAD_FAILED` for the known request
`"R"` marks it failed with the step error `"HTTP 404"` and publishes
nothing. -/
theorem c6_failed_handling_witness :
    handle_download_failed c6state 5 c6msg
      = failed_update "download" c6state 5 c6msg "R"
          ⟨"R", "process", "http://u", "processing", 0, 0,
           [⟨"submitted", "completed", 0, none, none⟩]⟩ :=
  (c6_failed_handling.1 c6state 5 c6msg "R" _ (by decide) rfl).1

/-- C1: correlation preservation.  The `/process` entry point publishes its
`DOWNLOAD_REQUEST` with `correlation_id = request_id`; every worker handler
(Downloader, Transcriber, AdDetector, AudioProcessor) publishes all of its
`*_COMPLETE` / `*_FAILED` / `*_IN_PROGRESS` messages with the incoming
message's correlation id; and every web-server completion handler
dispatches the next stage's `*_REQUEST` (or, for audio-processing
completion, nothing) with the incoming correlation id. -/
theorem c1_correlation_preserved :
    (∀ (st : WebState) (ex : String → Bool) (rid : String) (now : Nat)
        (url : String), ∀ mo ∈ (handle_process_request st ex rid now url).2,
        mo.correlation_id = some rid)
    ∧ (∀ (hash : String → String) (net : String → Except String Unit)
        (st : DownloaderState) (m : Message),
        ∀ mo ∈ (handle_download_request hash net st m).2.1,
        mo.correlation_id = m.correlation_id)
    ∧ (∀ (fe : String → Bool) (cl : String → Option (List Segment))
        (rec : String → Except String (List Segment)) (st : TranscriberState)
        (m : Message),
        ∀ mo ∈ (handle_transcription_request fe cl rec st m).2.1,
        mo.correlation_id = m.correlation_id)
    ∧ (∀ (files : String → Except String (List Segment))
        (oracle : Nat → Nat → Except String (List RespEntry)) (cfg : LLMConfig)
        (st : AdDetectorState) (m : Message),
        ∀ mo ∈ (handle_ad_detection_request files oracle cfg st m).2.1,
        mo.correlation_id = m.correlation_id)
    ∧ (∀ (files : String → Except String (List Segment)) (cfg : AudioConfig)
        (running : Bool) (m : Message),
        ∀ mo ∈ (handle_audio_processing_request files cfg running m).1,
        mo.correlation_id = m.correlation_id)
    ∧ (∀ (st : WebState) (now : Nat) (m : Message),
        ∀ mo ∈ (handle_download_complete st now m).2,
        mo.correlation_id = m.correlation_id)
    ∧ (∀ (st : WebState) (now : Nat) (m : Message),
        ∀ mo ∈ (handle_transcription_complete st now m).2,
        mo.correlation_id = m.correlation_id)
    ∧ (∀ (st : WebState) (now : Nat) (m : Message),
        ∀ mo ∈ (handle_ad_detection_complete st now m).2,
        mo.correlation_id = m.correlation_id)
    ∧ (∀ (cfg : WebServerConfig) (fid : String) (st : WebState) (now : Nat)
        (m : Message),
        ∀ mo ∈ (handle_audio_processing_complete cfg fid st now m).2,
        mo.correlation_id = m.correlation_id) := by
  refine ⟨?_, ?_, ?_, ?_, ?_, ?_, ?_, ?_, ?_⟩
  · intro st ex rid now url mo hmo
    unfold handle_process_request at hmo
    repeat' split at hmo
    all_goals simp_all
  · intro hash net st m mo hmo
    unfold handle_download_request at hmo
    repeat' split at hmo
    all_goals try simp_all
    all_goals (split at hmo <;> simp_all)
  · intro fe cl rec st m mo hmo
    unfold handle_transcription_request at hmo
    repeat' split at hmo
    all_goals try simp_all
    all_goals (split at hmo <;> simp_all)
  · intro files oracle cfg st m mo hmo
    unfold handle_ad_detection_request at hmo
    repeat' split at hmo
    all_goals simp_all
  · intro files cfg running m mo hmo
    unfold handle_audio_processing_request at hmo
    repeat' split at hmo
    all_goals simp_all
  · intro st now m mo hmo
    unfold handle_download_complete at hmo
    split at hmo
    case _ rid fp heq hfp => simp_all [corr_eq_correlation heq]
    case _ => simp_all
  · intro st now m mo hmo
    unfold handle_transcription_complete at hmo
    split at hmo
    case _ rid fp tp heq hfp htp => simp_all [corr_eq_correlation heq]
    case _ => simp_all
  · intro st now m mo hmo
    unfold handle_ad_detection_complete at hmo
    split at hmo
    case _ rid fp tp heq hfp htp => simp_all [corr_eq_correlation heq]
    case _ => simp_all
  · intro cfg fid st now m mo hmo
    unfold handle_audio_processing_complete at hmo
    repeat' split at hmo
    all_goals simp_all

/-- Witness for C1: the Downloader's short-circuit reply to a concrete
request with correlation id `"R2"` carries correlation id `"R2"`. -/
theorem c1_correlation_preserved_witness :
    (Message.mk Topics.DOWNLOAD_COMPLETE
      [("url", Val.str "http://u"), ("file_path", Val.str "podcasts/h"),
       ("already_processed", Val.bool true)] "" (some "R2")).correlation_id
      = some "R2" :=
  c1_correlation_preserved.2.1 (fun _ => "h") (fun _ => Except.ok ()) c2dlstate
    ⟨Topics.DOWNLOAD_REQUEST, [("url", Val.str "http://u")], "", some "R2"⟩ _
    (by decide)

/-- C2 counterexample: the AudioProcessor does not short-circuit a repeat
submission.  On a second identical `AUDIO_PROCESSING_REQUEST` for a
transcript with a 10-second ad, the handler re-renders the audio
(`Effect.render` appears in its trace) and publishes
`AUDIO_PROCESSING_COMPLETE` without any `already_processed` flag, so the
claim that every stage short-circuits is false. -/
theorem c2_counterexample :
    (handle_audio_processing_request c2files c2cfg true c2msg).1
        = [⟨Topics.AUDIO_PROCESSING_COMPLETE,
            [("input_path", Val.str "podcasts/abc.mp3"),
             ("output_path", Val.str "podcasts/abc_clean.mp3")], "",
            some "R2"⟩]
    ∧ Effect.render "podcasts/abc.mp3" "podcasts/abc_clean.mp3"
        ∈ (handle_audio_processing_request c2files c2cfg true c2msg).2
    ∧ ((handle_audio_processing_request c2files c2cfg true c2msg).1.map
        (fun mo => mo.get? "already_processed")) = [none] := by
  refine ⟨?_, ?_, ?_⟩ <;> decide

/-- C2 (amended): on a repeat submission the Downloader, Transcriber and
AdDetector each short-circuit — state unchanged, no heavy-work effects, a
single `*_COMPLETE` with `already_processed = true` — but the AudioProcessor
keeps no dedup state and re-processes every request, re-rendering whenever
the merged ad set is nonempty and publishing its completion without an
`already_processed` flag. -/
theorem c2_idempotence :
    (∀ (hash : String → String) (net : String → Except String Unit)
        (st : DownloaderState) (m : Message) (url : String),
        st.running = true → m.getStr "url" = some url →
        st.processed_files.contains url = true →
        st.storage.contains (generate_file_path hash url) = true →
        handle_download_request hash net st m
          = (st, [⟨Topics.DOWNLOAD_COMPLETE,
                   [("url", Val.str url),
                    ("file_path", Val.str (generate_file_path hash url)),
                    ("already_processed", Val.bool true)], "",
                   m.correlation_id⟩], []))
    ∧ (∀ (fe : String → Bool) (cl : String → Option (List Segment))
        (rec : String → Except String (List Segment)) (st : TranscriberState)
        (m : Message) (fp : String),
        st.running = true → m.getStr "file_path" = some fp →
        st.processed_files.contains fp = true →
        handle_transcription_request fe cl rec st m
          = (st, [⟨Topics.TRANSCRIBE_COMPLETE,
                   [("file_path", Val.str fp),
                    ("transcript_path", Val.str (fp ++ ".transcript.json")),
                    ("already_processed", Val.bool true)], "",
                   m.correlation_id⟩], []))
    ∧ (∀ (files : String → Except String (List Segment))
        (oracle : Nat → Nat → Except String (List RespEntry)) (cfg : LLMConfig)
        (st : AdDetectorState) (m : Message) (fp tp : String),
        st.running = true → m.getStr "file_path" = some fp →
        m.getStr "transcript_path" = some tp →
        st.processed_files.contains fp = true →
        handle_ad_detection_request files oracle cfg st m
          = (st, [⟨Topics.AD_DETECTION_COMPLETE,
                   [("file_path", Val.str fp), ("transcript_path", Val.str tp),
                    ("already_processed", Val.bool true)], "",
                   m.correlation_id⟩], []))
    ∧ (∀ (files : String → Except String (List Segment)) (cfg : AudioConfig)
        (m : Message) (fp tp : String) (segs : List Segment),
        m.getStr "file_path" = some fp → m.getStr "transcript_path" = some tp →
        files tp = Except.ok segs → (get_ad_segments cfg segs).isEmpty = false →
        handle_audio_processing_request files cfg true m
          = ([⟨Topics.AUDIO_PROCESSING_COMPLETE,
               [("input_path", Val.str fp),
                ("output_path", Val.str (clean_output_path fp))], "",
               m.correlation_id⟩],
             [Effect.audioLoad fp,
              Effect.render fp (clean_output_path fp)])) := by
  refine ⟨?_, ?_, ?_, ?_⟩
  · intro hash net st m url hrun hurl hproc hstore
    unfold handle_download_request
    rw [hurl]
    simp only [hrun, Bool.not_true, Bool.false_eq_true, if_false, hproc, hstore,
      Bool.and_self, if_true]
  · intro fe cl rec st m fp hrun hfp hproc
    unfold handle_transcription_request
    rw [hfp]
    simp only [hrun, Bool.not_true, Bool.false_eq_true, if_false, hproc, if_true]
  · intro files oracle cfg st m fp tp hrun hfp htp hproc
    unfold handle_ad_detection_request
    rw [hfp, htp]
    simp only [hrun, Bool.not_true, Bool.false_eq_true, if_false, hproc, if_true]
  · intro files cfg m fp tp segs hfp htp hfiles hne
    unfold handle_audio_processing_request
    rw [hfp, htp]
    simp only [Bool.not_true, Bool.false_eq_true, if_false, hfiles, remove_ads,
      hne, if_true]

/-- Witness for C2: concrete second submissions short-circuit at the first
three stages and re-render at the audio stage. -/
theorem c2_idempotence_witness :
    handle_download_request (fun _ => "h") (fun _ => Except.ok ()) c2dlstate c2dlmsg
        = (c2dlstate, [⟨Topics.DOWNLOAD_COMPLETE,
            [("url", Val.str "http://u"), ("file_path", Val.str "podcasts/h"),
             ("already_processed", Val.bool true)], "", some "R2"⟩], [])
    ∧ handle_transcription_request (fun _ => false) (fun _ => none)
          (fun _ => Except.error "whisper down") c2trstate c2trmsg
        = (c2trstate, [⟨Topics.TRANSCRIBE_COMPLETE,
            [("file_path", Val.str "podcasts/h"),
             ("transcript_path", Val.str "podcasts/h.transcript.json"),
             ("already_processed", Val.bool true)], "", some "R2"⟩], [])
    ∧ handle_ad_detection_request c2files (fun _ _ => Except.error "llm down")
          ⟨600, 3⟩ c2adstate c2admsg
        = (c2adstate, [⟨Topics.AD_DETECTION_COMPLETE,
            [("file_path", Val.str "podcasts/h"),
             ("transcript_path", Val.str "podcasts/h.transcript.json"),
             ("already_processed", Val.bool true)], "", some "R2"⟩], [])
    ∧ handle_audio_processing_request c2files c2cfg true c2msg
        = ([⟨Topics.AUDIO_PROCESSING_COMPLETE,
             [("input_path", Val.str "podcasts/abc.mp3"),
              ("output_path", Val.str "podcasts/abc_clean.mp3")], "",
             some "R2"⟩],
           [Effect.audioLoad "podcasts/abc.mp3",
            Effect.render "podcasts/abc.mp3" "podcasts/abc_clean.mp3"]) :=
  ⟨c2_idempotence.1 (fun _ => "h") (fun _ => Except.ok ()) c2dlstate c2dlmsg
      "http://u" rfl (by decide) (by decide) (by decide),
   c2_idempotence.2.1 (fun _ => false) (fun _ => none)
      (fun _ => Except.error "whisper down") c2trstate c2trmsg
      "podcasts/h" rfl (by decide) (by decide),
   c2_idempotence.2.2.1 c2files (fun _ _ => Except.error "llm down") ⟨600, 3⟩
      c2adstate c2admsg "podcasts/h" "podcasts/h.transcript.json" rfl
      (by decide) (by decide) (by decide),
   c2_idempotence.2.2.2 c2files c2cfg c2msg "podcasts/abc.mp3"
      "podcasts/abc.mp3.transcript.json" [mkSeg 0 "werbung" 0 10 true]
      (by decide) (by decide) rfl (by decide)⟩

/-- The retry loop never makes more LLM calls than attempts remain. -/
theorem process_chunk_go_calls_le (oracle : Nat → Except String (List RespEntry))
    (cid ma : Nat) :
    ∀ (remaining : Nat) (segs : List Segment) (le : Option String),
      (process_chunk_go oracle cid ma remaining segs le).2.1 ≤ remaining := by
  intro remaining
  induction remaining with
  | zero => intro segs le; simp [process_chunk_go]
  | succ r ih =>
    intro segs le
    unfold process_chunk_go
    cases oracle (ma - (r + 1)) with
    | ok entries =>
      cases h : applyResponse segs entries with
      | mk segsB err =>
        cases err with
        | none => simp [h]
        | some e =>
          simp only [h]
          have := ih segsB (some e)
          omega
    | error e =>
      simp only
      have := ih segs (some e)
      omega

/-- When every remaining LLM call fails at the call boundary, the loop
burns all its attempts, sleeps 2 s between consecutive attempts, and keeps
the segments untouched with the last error recorded. -/
theorem process_chunk_go_all_fail (oracle : Nat → Except String (List RespEntry))
    (cid ma : Nat) (errs : Nat → String)
    (h : ∀ k, k < ma → oracle k = Except.error (errs k)) :
    ∀ (remaining : Nat) (segs : List Segment) (le : Option String),
      1 ≤ remaining → remaining ≤ ma →
      process_chunk_go oracle cid ma remaining segs le
        = (⟨cid, segs, some (errs (ma - 1))⟩, remaining,
           List.replicate (remaining - 1) 2) := by
  intro remaining
  induction remaining with
  | zero => intro segs le h1 _; omega
  | succ r ih =>
    intro segs le _ hle
    unfold process_chunk_go
    rw [h (ma - (r + 1)) (by omega)]
    by_cases hr0 : r = 0
    · subst hr0
      have hidx : ma - 1 = ma - (0 + 1) := by omega
      simp [process_chunk_go, ← hidx]
    · have hrec := ih segs (some (errs (ma - (r + 1)))) (by omega) (by omega)
      have hrep : List.replicate (r + 1 - 1) (2 : ℚ) = 2 :: List.replicate (r - 1) 2 := by
        have h2 : r + 1 - 1 = (r - 1) + 1 := by omega
        rw [h2, List.replicate_succ]
      simp only [hrec, hr0, if_false, List.cons_append, List.nil_append]
      refine Prod.ext rfl (Prod.ext rfl ?_)
      have h2 : r + 1 - 1 = (r - 1) + 1 := by omega
      simp only [h2, List.replicate_succ]

/-- C5 (amended): `_process_chunk` calls the LLM at most `max_attempts`
times with a fixed 2-second sleep between consecutive attempts; when every
attempt fails at the call/parse boundary (before any per-segment update) it
returns a ProcessingResult with the chunk's unmodified segments and the
last attempt's error string — whereas a response that parses but whose
application raises midway keeps the updates already applied (see the
counterexample); and the request handler publishes
`AD_DETECTION_COMPLETE`, never a failure, for every oracle behaviour,
because all per-chunk errors are caught inside `_process_chunk`. -/
theorem c5_retry_behaviour :
    (∀ (oracle : Nat → Except String (List RespEntry)) (ma : Nat)
        (chunk : TranscriptChunk),
        (process_chunk oracle ma chunk).2.1 ≤ ma)
    ∧ (∀ (oracle : Nat → Except String (List RespEntry)) (ma : Nat)
        (chunk : TranscriptChunk) (errs : Nat → String),
        1 ≤ ma → (∀ k, k < ma → oracle k = Except.error (errs k)) →
        process_chunk oracle ma chunk
          = (⟨chunk.chunk_id, chunk.segments, some (errs (ma - 1))⟩, ma,
             List.replicate (ma - 1) 2))
    ∧ (∀ (files : String → Except String (List Segment))
        (oracle : Nat → Nat → Except String (List RespEntry)) (cfg : LLMConfig)
        (st : AdDetectorState) (m : Message) (fp tp : String)
        (segs : List Segment),
        st.running = true → m.getStr "file_path" = some fp →
        m.getStr "transcript_path" = some tp →
        st.processed_files.contains fp = false →
        st.files_in_process.contains fp = false →
        files tp = Except.ok segs →
        (handle_ad_detection_request files oracle cfg st m).2.1
          = [⟨Topics.AD_DETECTION_COMPLETE,
              [("file_path", Val.str fp), ("transcript_path", Val.str tp)], "",
              m.correlation_id⟩]) := by
  refine ⟨?_, ?_, ?_⟩
  · intro oracle ma chunk
    exact process_chunk_go_calls_le oracle chunk.chunk_id ma ma chunk.segments none
  · intro oracle ma chunk errs h1 h
    exact process_chunk_go_all_fail oracle chunk.chunk_id ma errs h ma
      chunk.segments none h1 (le_refl ma)
  · intro files oracle cfg st m fp tp segs hrun hfp htp hproc hin hfiles
    unfold handle_ad_detection_request
    rw [hfp, htp]
    simp only [hrun, Bool.not_true, Bool.false_eq_true, if_false, hproc, hin,
      hfiles, if_true]

/-- C5 counterexample: with the default three attempts and an oracle whose
response always parses but whose second entry lacks the `"ad"` key, every
attempt raises after updating segment 0, so exhaustion returns *mutated*
segments — not the unmodified ones the claim states. -/
theorem c5_counterexample :
    (process_chunk c5oracle 3 c5chunk).1.segments
        = [mkSeg 0 "a" 0 1 true, mkSeg 1 "b" 1 2 false]
    ∧ (process_chunk c5oracle 3 c5chunk).1.segments ≠ c5chunk.segments
    ∧ (process_chunk c5oracle 3 c5chunk).1.error = some "KeyError: ad"
    ∧ (process_chunk c5oracle 3 c5chunk).2.1 = 3 := by
  refine ⟨?_, ?_, ?_, ?_⟩ <;> decide

/-- Witness for C5: a concrete all-failing oracle burns exactly 3 attempts
with two 2-second sleeps and returns the unmodified chunk with the last
error; and the concrete handler still publishes `AD_DETECTION_COMPLETE`
with an oracle that always fails. -/
theorem c5_retry_behaviour_witness :
    process_chunk (fun k => Except.error (c5errs k)) 3 c5chunk
        = (⟨0, c5chunk.segments, some (c5errs 2)⟩, 3, [2, 2])
    ∧ (handle_ad_detection_request c2files
          (fun _ _ => Except.error "llm down") ⟨600, 3⟩ ⟨true, [], []⟩
          c5admsg).2.1
        = [⟨Topics.AD_DETECTION_COMPLETE,
            [("file_path", Val.str "podcasts/abc.mp3"),
             ("transcript_path", Val.str "podcasts/abc.mp3.transcript.json")],
            "", some "R"⟩] :=
  ⟨c5_retry_behaviour.2.1 (fun k => Except.error (c5errs k)) 3 c5chunk c5errs
      (by omega) (fun k _ => rfl),
   c5_retry_behaviour.2.2 c2files (fun _ _ => Except.error "llm down") ⟨600, 3⟩
      ⟨true, [], []⟩ c5admsg "podcasts/abc.mp3"
      "podcasts/abc.mp3.transcript.json" [mkSeg 0 "werbung" 0 10 true] rfl
      (by decide) (by decide) (by decide) (by decide) rfl⟩

/-! Structural lemmas about the coalescing pass, used for C3. -/

theorem markAd_length : ∀ (l : List Segment) (n : Nat), (markAd l n).length = l.length := by
  intro l
  induction l with
  | nil => intro n; rfl
  | cons s t ih =>
    intro n
    cases n with
    | zero => simp [markAd]
    | succ m => simp [markAd, ih]

theorem markAd_getElem : ∀ (l : List Segment) (n k : Nat),
    (markAd l n)[k]? = if k = n then (l[k]?).map (fun s => { s with is_ad := true })
      else l[k]? := by
  intro l
  induction l with
  | nil => intro n k; simp [markAd]
  | cons s t ih =>
    intro n k
    cases n with
    | zero =>
      cases k with
      | zero => simp [markAd]
      | succ kk => simp [markAd]
    | succ m =>
      cases k with
      | zero => simp [markAd]
      | succ kk => simp [markAd, ih m kk]

theorem textAt_markAd (l : List Segment) (n k : Nat) :
    textAt (markAd l n) k = textAt l k := by
  unfold textAt
  rw [markAd_getElem]
  by_cases hk : k = n
  · rw [if_pos hk]
    cases l[k]? <;> simp
  · rw [if_neg hk]

theorem adAt_markAd_of (l : List Segment) (n k : Nat)
    (h : adAt l k = true) : adAt (markAd l n) k = true := by
  unfold adAt at h ⊢
  rw [markAd_getElem]
  by_cases hk : k = n
  · rw [if_pos hk]
    cases hx : l[k]? with
    | none => rw [hx] at h; exact absurd h (by simp)
    | some s => simp
  · rw [if_neg hk]
    exact h

theorem adAt_markAd_self (l : List Segment) (n : Nat) (h : n < l.length) :
    adAt (markAd l n) n = true := by
  unfold adAt
  rw [markAd_getElem, if_pos rfl, List.getElem?_eq_getElem h]
  simp

theorem merge_walk_length : ∀ (fuel : Nat) (segs : List Segment) (j : Nat),
    (merge_walk fuel segs j).length = segs.length := by
  intro fuel
  induction fuel with
  | zero => intro segs j; rfl
  | succ f ih =>
    intro segs j
    unfold merge_walk
    repeat' split
    all_goals simp [ih, markAd_length]

theorem textAt_merge_walk : ∀ (fuel : Nat) (segs : List Segment) (j k : Nat),
    textAt (merge_walk fuel segs j) k = textAt segs k := by
  intro fuel
  induction fuel with
  | zero => intro segs j k; rfl
  | succ f ih =>
    intro segs j k
    unfold merge_walk
    repeat' split
    all_goals simp [ih, textAt_markAd]

theorem adAt_merge_walk_mono : ∀ (fuel : Nat) (segs : List Segment) (j k : Nat),
    adAt segs k = true → adAt (merge_walk fuel segs j) k = true := by
  intro fuel
  induction fuel with
  | zero => intro segs j k h; exact h
  | succ f ih =>
    intro segs j k h
    unfold merge_walk
    repeat' split
    all_goals first
      | exact h
      | exact ih (markAd segs j) (j + 1) k (adAt_markAd_of segs j k h)

theorem merge_outer_length : ∀ (fuel : Nat) (segs : List Segment) (i : Nat),
    (merge_outer fuel segs i).length = segs.length := by
  intro fuel
  induction fuel with
  | zero => intro segs i; rfl
  | succ f ih =>
    intro segs i
    unfold merge_outer
    repeat' split
    all_goals simp [ih, merge_walk_length, markAd_length]

theorem textAt_merge_outer : ∀ (fuel : Nat) (segs : List Segment) (i k : Nat),
    textAt (merge_outer fuel segs i) k = textAt segs k := by
  intro fuel
  induction fuel with
  | zero => intro segs i k; rfl
  | succ f ih =>
    intro segs i k
    unfold merge_outer
    repeat' split
    all_goals simp [ih, textAt_merge_walk, textAt_markAd]

theorem adAt_merge_outer_mono : ∀ (fuel : Nat) (segs : List Segment) (i k : Nat),
    adAt segs k = true → adAt (merge_outer fuel segs i) k = true := by
  intro fuel
  induction fuel with
  | zero => intro segs i k h; exact h
  | succ f ih =>
    intro segs i k h
    unfold merge_outer
    repeat' split
    all_goals first
      | exact h
      | exact ih segs (i + 1) k h
      | exact ih (merge_walk (segs.length + 1) (markAd segs i) (i + 1)) (i + 1) k
          (adAt_merge_walk_mono _ _ _ k (adAt_markAd_of segs i k h))

theorem adAt_eq_get (l : List Segment) (i : Nat) (h : i < l.length) :
    adAt l i = (l.get ⟨i, h⟩).is_ad := by
  unfold adAt
  rw [List.getElem?_eq_getElem h]
  rfl

theorem textAt_eq_get (l : List Segment) (i : Nat) (h : i < l.length) :
    textAt l i = (l.get ⟨i, h⟩).text := by
  unfold textAt
  rw [List.getElem?_eq_getElem h]
  rfl

/-- Any transition-phrase segment at or beyond the loop index ends up
ad-marked, provided the loop has enough fuel left. -/
theorem adAt_merge_outer_phrase : ∀ (fuel : Nat) (segs : List Segment) (i j : Nat),
    segs.length ≤ fuel + i → i ≤ j → j < segs.length →
    matches_transition (textAt segs j) = true →
    adAt (merge_outer fuel segs i) j = true := by
  intro fuel
  induction fuel with
  | zero => intro segs i j hf hij hj _; omega
  | succ f ih =>
    intro segs i j hf hij hj hph
    have hi : i < segs.length := lt_of_le_of_lt hij hj
    unfold merge_outer
    rw [dif_pos hi]
    by_cases had : (segs.get ⟨i, hi⟩).is_ad
    · rw [if_pos had]
      rcases eq_or_lt_of_le hij with heq | hlt
      · subst heq
        exact adAt_merge_outer_mono f segs (i + 1) i (by rw [adAt_eq_get segs i hi, had])
      · exact ih segs (i + 1) j (by omega) (by omega) hj hph
    · rw [if_neg had]
      by_cases hphi : matches_transition ((segs.get ⟨i, hi⟩).text) = true
      · rw [if_pos hphi]
        rcases eq_or_lt_of_le hij with heq | hlt
        · subst heq
          exact adAt_merge_outer_mono f _ (i + 1) i
            (adAt_merge_walk_mono _ _ _ i (adAt_markAd_self segs i hi))
        · refine ih _ (i + 1) j ?_ (by omega) ?_ ?_
          · rw [merge_walk_length, markAd_length]; omega
          · rw [merge_walk_length, markAd_length]; exact hj
          · rw [textAt_merge_walk, textAt_markAd]; exact hph
      · rw [if_neg hphi]
        rcases eq_or_lt_of_le hij with heq | hlt
        · subst heq
          rw [textAt_eq_get segs i hi] at hph
          exact absurd hph hphi
        · exact ih segs (i + 1) j (by omega) (by omega) hj hph

/-- Coalescing never clears an ad flag. -/
theorem adAt_merge_adjacent_ads_mono (segs : List Segment) (k : Nat)
    (h : adAt segs k = true) : adAt (merge_adjacent_ads segs) k = true := by
  unfold merge_adjacent_ads
  split
  · exact adAt_merge_outer_mono _ segs 0 k h
  · exact h

/-- When some input segment is flagged, coalescing marks every
transition-phrase segment. -/
theorem adAt_merge_adjacent_ads_phrase (segs : List Segment) (j : Nat)
    (hany : segs.any (·.is_ad) = true) (hj : j < segs.length)
    (hph : matches_transition (textAt segs j) = true) :
    adAt (merge_adjacent_ads segs) j = true := by
  unfold merge_adjacent_ads
  rw [if_pos hany]
  exact adAt_merge_outer_phrase (segs.length + 1) segs 0 j (by omega) (by omega) hj hph

/-- C3 counterexample: two LLM-flagged segments separated by one clean
segment with a 0-second gap to its successor, and no transition phrase
anywhere: coalescing leaves the middle segment unmarked although the gap is
not above 5 s, so the claimed monotonicity fails on the code. -/
theorem c3_counterexample : ¬ ad_block_monotone (merge_adjacent_ads c3segs) := by
  intro h
  rcases h 0 2 1 (by decide) (by decide) (by decide) (by decide) (by decide)
    with h1 | h2
  · exact absurd h1 (by decide)
  · exact absurd h2 (by decide)

/-- C3 (amended): after coalescing, whenever positions `i < k` are both
ad-marked, every intermediate `j` is either ad-marked, or was unmarked
before coalescing and carries no transition phrase.  (The 5-second gap-fill
of the original claim applies only inside a walk started at a
transition-phrase segment, so a close gap between plain LLM-marked ads is
not bridged — see the counterexample.) -/
theorem c3_ad_block_monotonicity (segs : List Segment) (i j k : Nat)
    (hij : i < j) (hjk : j < k) (hk : k < (merge_adjacent_ads segs).length)
    (hi : adAt (merge_adjacent_ads segs) i = true)
    (hkad : adAt (merge_adjacent_ads segs) k = true) :
    adAt (merge_adjacent_ads segs) j = true
      ∨ (adAt segs j = false ∧ matches_transition (textAt segs j) = false) := by
  by_cases hja : adAt segs j = true
  · exact Or.inl (adAt_merge_adjacent_ads_mono segs j hja)
  · by_cases hph : matches_transition (textAt segs j) = true
    · by_cases hany : segs.any (·.is_ad) = true
      · left
        have hlen : (merge_adjacent_ads segs).length = segs.length := by
          unfold merge_adjacent_ads
          rw [if_pos hany]
          exact merge_outer_length _ segs 0
        exact adAt_merge_adjacent_ads_phrase segs j hany (by omega) hph
      · -- no input ad at all: the pass is the identity, contradicting `hi`
        have hid : merge_adjacent_ads segs = segs := by
          unfold merge_adjacent_ads
          simp only [Bool.not_eq_true] at hany
          rw [if_neg (by simp [hany])]
        rw [hid] at hi
        unfold adAt at hi
        cases hgi : segs[i]? with
        | none => rw [hgi] at hi; exact absurd hi (by simp)
        | some s =>
          rw [hgi] at hi
          have hmem : s ∈ segs := List.getElem?_mem hgi
          have : segs.any (·.is_ad) = true := by
            rw [List.any_eq_true]
            exact ⟨s, hmem, hi⟩
          exact absurd this hany
    · exact Or.inr ⟨by simpa using hja, by simpa using hph⟩

/-- Witness for C3: on the spec's scenario transcript the coalesced ads at
indices 1 and 10 bracket index 5, whose text carries no phrase and which
was unflagged. -/
theorem c3_ad_block_monotonicity_witness :
    adAt (merge_adjacent_ads c7segs) 5 = true
      ∨ (adAt c7segs 5 = false ∧ matches_transition (textAt c7segs 5) = false) :=
  c3_ad_block_monotonicity c7segs 1 5 10 (by decide) (by decide) (by decide)
    (by decide) (by decide)

/-! Lemmas on the interval sweep, used for C4. -/

theorem merge_go_min (cfg : AudioConfig) :
    ∀ (l : List (ℚ × ℚ)) (cur : ℚ × ℚ), ∀ p ∈ merge_go cfg cur l,
      cfg.min_duration ≤ p.2 - p.1 := by
  intro l
  induction l with
  | nil =>
    intro cur p hp
    unfold merge_go at hp
    split at hp
    · rw [List.mem_singleton] at hp
      subst hp
      assumption
    · exact absurd hp (by simp)
  | cons se rest ih =>
    intro cur p hp
    unfold merge_go at hp
    split at hp
    · exact ih _ p hp
    · split at hp
      · rw [List.mem_cons] at hp
        rcases hp with hp | hp
        · subst hp; assumption
        · exact ih _ p hp
      · exact ih _ p hp

theorem merge_go_head_lb (cfg : AudioConfig) (b : ℚ) :
    ∀ (l : List (ℚ × ℚ)) (cur : ℚ × ℚ), b ≤ cur.1 → (∀ p ∈ l, b ≤ p.1) →
      ∀ q ∈ (merge_go cfg cur l).head?, b ≤ q.1 := by
  intro l
  induction l with
  | nil =>
    intro cur hc _ q hq
    unfold merge_go at hq
    split at hq
    · simp only [List.head?_cons, Option.mem_def, Option.some_inj] at hq
      subst hq
      exact hc
    · exact absurd hq (by simp)
  | cons se rest ih =>
    intro cur hc hr q hq
    unfold merge_go at hq
    split at hq
    · exact ih (cur.1, max cur.2 se.2) hc
        (fun p hp => hr p (List.mem_cons_of_mem se hp)) q hq
    · split at hq
      · simp only [List.head?_cons, Option.mem_def, Option.some_inj] at hq
        subst hq
        exact hc
      · exact ih _ (hr se (List.mem_cons_self se rest))
          (fun p hp => hr p (List.mem_cons_of_mem se hp)) q hq

theorem merge_go_chain (cfg : AudioConfig) :
    ∀ (l : List (ℚ × ℚ)) (cur : ℚ × ℚ), cur.1 ≤ cur.2 →
      (∀ p ∈ l, p.1 ≤ p.2) → List.Pairwise (fun a b : ℚ × ℚ => a.1 ≤ b.1) l →
      List.Chain' (fun a b : ℚ × ℚ => a.2 + cfg.max_gap < b.1)
        (merge_go cfg cur l) := by
  intro l
  induction l with
  | nil =>
    intro cur _ _ _
    unfold merge_go
    split
    · exact List.chain'_singleton cur
    · exact List.chain'_nil
  | cons se rest ih =>
    intro cur hcur hpr hsort
    rw [List.pairwise_cons] at hsort
    unfold merge_go
    split
    · refine ih (cur.1, max cur.2 se.2) ?_ (fun p hp => hpr p (List.mem_cons_of_mem se hp)) hsort.2
      exact le_trans hcur (le_max_left _ _)
    · rename_i hfar
      push_neg at hfar
      split
      · rw [List.chain'_cons']
        refine ⟨?_, ih se (hpr se (List.mem_cons_self se rest))
          (fun p hp => hpr p (List.mem_cons_of_mem se hp)) hsort.2⟩
        intro q hq
        have hb := merge_go_head_lb cfg se.1 rest se (le_refl se.1) hsort.1 q hq
        calc cur.2 + cfg.max_gap < se.1 := hfar
          _ ≤ q.1 := hb
      · exact ih se (hpr se (List.mem_cons_self se rest))
          (fun p hp => hpr p (List.mem_cons_of_mem se hp)) hsort.2

theorem chain_lb (g : ℚ) (hg : 0 ≤ g) :
    ∀ (l : List (ℚ × ℚ)), List.Chain' (fun a b : ℚ × ℚ => a.2 + g < b.1) l →
      (∀ p ∈ l, p.1 ≤ p.2) → ∀ x : ℚ, (∀ q ∈ l.head?, x < q.1) →
      ∀ b ∈ l, x < b.1 := by
  intro l
  induction l with
  | nil => intro _ _ x _ b hb; exact absurd hb (by simp)
  | cons a t ih =>
    intro hch hpr x hx b hb
    rw [List.chain'_cons'] at hch
    rw [List.mem_cons] at hb
    rcases hb with hb | hb
    · subst hb
      exact hx b (by simp)
    · refine ih hch.2 (fun p hp => hpr p (List.mem_cons_of_mem a hp)) x ?_ b hb
      intro q hq
      have h1 : x < a.1 := hx a (by simp)
      have h2 : a.1 ≤ a.2 := hpr a (List.mem_cons_self a t)
      have h3 : a.2 + g < q.1 := hch.1 q hq
      linarith

theorem chain_pairwise (g : ℚ) (hg : 0 ≤ g) :
    ∀ (l : List (ℚ × ℚ)), List.Chain' (fun a b : ℚ × ℚ => a.2 + g < b.1) l →
      (∀ p ∈ l, p.1 ≤ p.2) →
      List.Pairwise (fun a b : ℚ × ℚ => a.2 < b.1) l := by
  intro l
  induction l with
  | nil => intro _ _; exact List.Pairwise.nil
  | cons a t ih =>
    intro hch hpr
    rw [List.chain'_cons'] at hch
    refine List.Pairwise.cons ?_ (ih hch.2 (fun p hp => hpr p (List.mem_cons_of_mem a hp)))
    intro b hb
    refine chain_lb g hg t hch.2 (fun p hp => hpr p (List.mem_cons_of_mem a hp)) a.2 ?_ b hb
    intro q hq
    have := hch.1 q hq
    linarith

/-- C4: on proper intervals (`start ≤ end`) and the non-negative configured
bounds, `AudioProcessor._merge_segments` returns intervals that are (a)
pairwise disjoint (each ends strictly before any later one starts), (b)
sorted by start, (c) each at least `min_duration` long, and (d) separated
from their successors by gaps strictly above `max_gap`. -/
theorem c4_merge_segments_spec (cfg : AudioConfig) (l : List (ℚ × ℚ))
    (hproper : ∀ p ∈ l, p.1 ≤ p.2) (hg : 0 ≤ cfg.max_gap)
    (hd : 0 ≤ cfg.min_duration) :
    List.Pairwise (fun a b : ℚ × ℚ => a.2 < b.1) (merge_segments cfg l)
    ∧ List.Pairwise (fun a b : ℚ × ℚ => a.1 ≤ b.1) (merge_segments cfg l)
    ∧ (∀ p ∈ merge_segments cfg l, cfg.min_duration ≤ p.2 - p.1)
    ∧ List.Chain' (fun a b : ℚ × ℚ => cfg.max_gap < b.1 - a.2)
        (merge_segments cfg l) := by
  have hproperS : ∀ p ∈ sortPairs l, p.1 ≤ p.2 := by
    intro p hp
    exact hproper p (by simpa [sortPairs] using hp)
  have hsortS : List.Pairwise (fun a b : ℚ × ℚ => a.1 ≤ b.1) (sortPairs l) := by
    refine List.Pairwise.imp ?_ (List.sorted_insertionSort pairLex l)
    intro a b hab
    rcases hab with h | ⟨h, _⟩
    · exact le_of_lt h
    · exact le_of_eq h
  unfold merge_segments
  cases hs : sortPairs l with
  | nil => refine ⟨by simp, by simp, by simp, by simp⟩
  | cons c rest =>
    rw [hs] at hproperS hsortS
    rw [List.pairwise_cons] at hsortS
    have hchain := merge_go_chain cfg rest c
      (hproperS c (List.mem_cons_self c rest))
      (fun p hp => hproperS p (List.mem_cons_of_mem c hp)) hsortS.2
    have hmin := merge_go_min cfg rest c
    have hproperM : ∀ p ∈ merge_go cfg c rest, p.1 ≤ p.2 := by
      intro p hp
      have := hmin p hp
      linarith
    have hdisj := chain_pairwise cfg.max_gap hg (merge_go cfg c rest) hchain hproperM
    refine ⟨hdisj, ?_, hmin, ?_⟩
    · refine List.Pairwise.imp_of_mem ?_ hdisj
      intro a b ha _ hab
      have := hproperM a ha
      linarith
    · refine List.Chain'.imp ?_ hchain
      intro a b hab
      linarith

/-- Witness for C4: a concrete run with the default configuration — two
surviving intervals after one extension chain and one too-short discard —
satisfies all four properties. -/
theorem c4_merge_segments_spec_witness :
    List.Pairwise (fun a b : ℚ × ℚ => a.2 < b.1)
        (merge_segments ⟨5, 20⟩ [(30, 40), (0, 10), (12, 20), (100, 103), (200, 300)])
    ∧ List.Pairwise (fun a b : ℚ × ℚ => a.1 ≤ b.1)
        (merge_segments ⟨5, 20⟩ [(30, 40), (0, 10), (12, 20), (100, 103), (200, 300)])
    ∧ (∀ p ∈ merge_segments ⟨5, 20⟩ [(30, 40), (0, 10), (12, 20), (100, 103), (200, 300)],
        (5 : ℚ) ≤ p.2 - p.1)
    ∧ List.Chain' (fun a b : ℚ × ℚ => (20 : ℚ) < b.1 - a.2)
        (merge_segments ⟨5, 20⟩ [(30, 40), (0, 10), (12, 20), (100, 103), (200, 300)]) :=
  c4_merge_segments_spec ⟨5, 20⟩ [(30, 40), (0, 10), (12, 20), (100, 103), (200, 300)]
    (by decide) (by decide) (by decide)

end Podcleaner
